import Mathlib

/-!
Verification of the CLV / churn notebook and scripts.

The repository is a single Python source holding three batch pipelines:
an RFM (recency / frequency / monetary) feature builder over retail
transactions, a synthetic churn-data generator, and a churn classifier
pipeline.  This file shallowly embeds the pure data transformations of
those pipelines and proves the spec's testable properties about them.

Timestamps are modelled as integers counting minutes, so that the
pandas day-flooring of timestamp differences (`.dt.days` on a
`Timedelta`) is visible: one day is 1440 minutes and `.days` is floor
division by 1440.
-/

/-- One row of the retail spreadsheet read by the CLV notebook.
`CustomerID` is `none` when the cell is missing (pandas `NaN`);
`InvoiceDate` is a timestamp in minutes. -/
structure Transaction where
  Invoice : String
  CustomerID : Option Nat
  Quantity : Int
  Price : Rat
  InvoiceDate : Int
deriving DecidableEq

/-- `data.dropna(subset=['Customer ID'])`: drop rows whose customer id is missing. -/
def dropnaCustomer (data : List Transaction) : List Transaction :=
  data.filter (fun r => r.CustomerID.isSome)

/-- `data['Invoice'].astype(str).str.startswith('C')`: the invoice id
starts with the cancellation marker character `C`.  Stated on the
character list of the string. -/
def isCancelled (r : Transaction) : Bool :=
  List.isPrefixOf ['C'] r.Invoice.data

/-- `data = data[~data['Invoice'].astype(str).str.startswith('C')]`:
drop rows whose invoice id starts with the cancellation marker `C`. -/
def dropCancelled (data : List Transaction) : List Transaction :=
  data.filter (fun r => !(isCancelled r))

/-- The notebook's preprocessing: dropna on customer id, then the
cancellation filter. -/
def preprocess (data : List Transaction) : List Transaction :=
  dropCancelled (dropnaCustomer data)

/-- `data['TotalPrice'] = data['Quantity'] * data['Price']`. -/
def TotalPrice (r : Transaction) : Rat :=
  (r.Quantity : Rat) * r.Price

/-- Maximum of a list of integers, as pandas `max()` over a column
(meaningful on nonempty lists). -/
def listMax (l : List Int) : Int :=
  l.foldl max (l.headD 0)

/-- Minimum of a list of integers, as pandas `min()` over a column. -/
def listMin (l : List Int) : Int :=
  l.foldl min (l.headD 0)

/-- The rows of one customer's group in `data.groupby('Customer ID')`. -/
def customerRows (data : List Transaction) (c : Nat) : List Transaction :=
  data.filter (fun r => r.CustomerID = some c)

/-- The invoice-date column of a row collection. -/
def invoiceDates (rows : List Transaction) : List Int :=
  rows.map (fun r => r.InvoiceDate)

/-- `latest_date = data['InvoiceDate'].max()`. -/
def latestDate (data : List Transaction) : Int :=
  listMax (invoiceDates data)

/-- Minutes per day: the divisor hidden in `.dt.days`. -/
def minutesPerDay : Int := 1440

/-- pandas `Timedelta.days`: floor division of the difference by one day. -/
def tdDays (d : Int) : Int :=
  Int.fdiv d minutesPerDay

/-- `'InvoiceDate': lambda x: (latest_date - x.max()).days` of the
groupby aggregation, evaluated on an already-preprocessed `data`. -/
def Recency (data : List Transaction) (c : Nat) : Int :=
  tdDays (latestDate data - listMax (invoiceDates (customerRows data c)))

/-- `'Invoice': 'nunique'` of the groupby aggregation: the number of
distinct invoice identifiers in the customer's rows. -/
def Frequency (data : List Transaction) (c : Nat) : Nat :=
  ((customerRows data c).map (fun r => r.Invoice)).dedup.length

/-- `'TotalPrice': 'sum'` of the groupby aggregation. -/
def Monetary (data : List Transaction) (c : Nat) : Rat :=
  ((customerRows data c).map TotalPrice).sum

/-- `data.groupby('Customer ID')['InvoiceDate'].min()`: first purchase date. -/
def FirstPurchase (data : List Transaction) (c : Nat) : Int :=
  listMin (invoiceDates (customerRows data c))

/-- `rfm['Tenure'] = (latest_date - rfm['FirstPurchaseDate']).dt.days`. -/
def Tenure (data : List Transaction) (c : Nat) : Int :=
  tdDays (latestDate data - FirstPurchase data c)

/-! Helper lemmas about `listMax` / `listMin`. -/

lemma le_foldl_max (l : List Int) : ∀ a : Int, a ≤ l.foldl max a := by
  induction l with
  | nil => intro a; simp
  | cons b t ih =>
      intro a
      have h1 : a ≤ max a b := le_max_left a b
      have h2 : max a b ≤ t.foldl max (max a b) := ih (max a b)
      simpa using le_trans h1 h2

lemma foldl_max_le (l : List Int) :
    ∀ a x : Int, x ∈ l → x ≤ l.foldl max a := by
  induction l with
  | nil => intro a x hx; simp at hx
  | cons b t ih =>
      intro a x hx
      rcases List.mem_cons.mp hx with hb | ht
      · subst hb
        have h1 : x ≤ max a x := le_max_right a x
        have h2 : max a x ≤ t.foldl max (max a x) := le_foldl_max t (max a x)
        simpa using le_trans h1 h2
      · simpa using ih (max a b) x ht

lemma foldl_max_mem (l : List Int) :
    ∀ a : Int, l.foldl max a = a ∨ l.foldl max a ∈ l := by
  induction l with
  | nil => intro a; left; rfl
  | cons b t ih =>
      intro a
      rcases ih (max a b) with h | h
      · rcases max_choice a b with hm | hm
        · left; simpa [hm] using h
        · right; simp only [List.foldl_cons]
          rw [h, hm]; exact List.mem_cons_self b t
      · right; simp only [List.foldl_cons]
        exact List.mem_cons_of_mem b h

lemma le_listMax {l : List Int} {x : Int} (hx : x ∈ l) : x ≤ listMax l :=
  foldl_max_le l (l.headD 0) x hx

lemma listMax_mem {l : List Int} (h : l ≠ []) : listMax l ∈ l := by
  rcases foldl_max_mem l (l.headD 0) with he | hm
  · unfold listMax
    rw [he]
    cases l with
    | nil => exact absurd rfl h
    | cons b t => exact List.mem_cons_self b t
  · exact hm

lemma foldl_min_mem (l : List Int) :
    ∀ a : Int, l.foldl min a = a ∨ l.foldl min a ∈ l := by
  induction l with
  | nil => intro a; left; rfl
  | cons b t ih =>
      intro a
      rcases ih (min a b) with h | h
      · rcases min_choice a b with hm | hm
        · left; simpa [hm] using h
        · right; simp only [List.foldl_cons]
          rw [h, hm]; exact List.mem_cons_self b t
      · right; simp only [List.foldl_cons]
        exact List.mem_cons_of_mem b h

lemma listMin_mem {l : List Int} (h : l ≠ []) : listMin l ∈ l := by
  rcases foldl_min_mem l (l.headD 0) with he | hm
  · unfold listMin
    rw [he]
    cases l with
    | nil => exact absurd rfl h
    | cons b t => exact List.mem_cons_self b t
  · exact hm

/-! Helper lemmas about `tdDays`. -/

lemma fdiv_ofNat (m n : Nat) :
    Int.fdiv (Int.ofNat m) (Int.ofNat n) = Int.ofNat (m / n) := by
  cases m with
  | zero =>
      show (0 : Int) = Int.ofNat (0 / n)
      rw [Nat.zero_div]
      rfl
  | succ k => rfl

lemma tdDays_nonneg {d : Int} (hd : 0 ≤ d) : 0 ≤ tdDays d := by
  obtain ⟨m, rfl⟩ := Int.eq_ofNat_of_zero_le hd
  show 0 ≤ Int.fdiv (Int.ofNat m) (Int.ofNat 1440)
  rw [fdiv_ofNat]
  exact Int.ofNat_nonneg _

lemma tdDays_zero : tdDays 0 = 0 := rfl

lemma tdDays_eq_zero_iff {d : Int} (hd : 0 ≤ d) :
    tdDays d = 0 ↔ d < 1440 := by
  obtain ⟨m, rfl⟩ := Int.eq_ofNat_of_zero_le hd
  show Int.fdiv (Int.ofNat m) (Int.ofNat 1440) = 0 ↔ _
  rw [fdiv_ofNat, Int.ofNat_eq_natCast]
  constructor
  · intro h0
    have hm : m / 1440 = 0 := by exact_mod_cast h0
    have := (Nat.div_eq_zero_iff (by norm_num : 0 < 1440)).mp hm
    exact_mod_cast this
  · intro hlt
    have hm : m < 1440 := by exact_mod_cast hlt
    have h0 : m / 1440 = 0 := (Nat.div_eq_zero_iff (by norm_num)).mpr hm
    simp [h0]

/-- Membership in a customer's group implies membership in the data. -/
lemma customerRows_subset {data : List Transaction} {c : Nat} {r : Transaction}
    (h : r ∈ customerRows data c) : r ∈ data :=
  List.mem_of_mem_filter h

/-- The maximal invoice date of a customer's rows is at most the
dataset-wide maximum. -/
lemma customerMax_le_latest {data : List Transaction} {c : Nat}
    (h : customerRows data c ≠ []) :
    listMax (invoiceDates (customerRows data c)) ≤ latestDate data := by
  have hne : invoiceDates (customerRows data c) ≠ [] := by
    intro hnil
    exact h (by simpa [invoiceDates] using congrArg List.length hnil)
  have hmem := listMax_mem hne
  rcases List.mem_map.mp hmem with ⟨r, hr, hrd⟩
  have hrdata : r ∈ data := customerRows_subset hr
  have : r.InvoiceDate ∈ invoiceDates data := List.mem_map_of_mem _ hrdata
  calc listMax (invoiceDates (customerRows data c))
      = r.InvoiceDate := hrd.symm
    _ ≤ listMax (invoiceDates data) := le_listMax this

/-- The first purchase date of a customer is at most the dataset-wide
maximum date. -/
lemma firstPurchase_le_latest {data : List Transaction} {c : Nat}
    (h : customerRows data c ≠ []) :
    FirstPurchase data c ≤ latestDate data := by
  have hne : invoiceDates (customerRows data c) ≠ [] := by
    intro hnil
    exact h (by simpa [invoiceDates] using congrArg List.length hnil)
  have hmem := listMin_mem hne
  rcases List.mem_map.mp hmem with ⟨r, hr, hrd⟩
  have hrdata : r ∈ data := customerRows_subset hr
  have hmem2 : r.InvoiceDate ∈ invoiceDates data := List.mem_map_of_mem _ hrdata
  calc FirstPurchase data c
      = r.InvoiceDate := hrd.symm
    _ ≤ listMax (invoiceDates data) := le_listMax hmem2

/-- A concrete transaction set: customer 101 has three distinct
invoices spread over five rows (two invoices split across two rows
each), customer 102 has a single row. -/
def exampleTxns : List Transaction :=
  [ { Invoice := "536365", CustomerID := some 101, Quantity := 2, Price := 3, InvoiceDate := 0 },
    { Invoice := "536365", CustomerID := some 101, Quantity := 1, Price := 5, InvoiceDate := 0 },
    { Invoice := "536366", CustomerID := some 101, Quantity := 4, Price := 2, InvoiceDate := 1440 },
    { Invoice := "536366", CustomerID := some 101, Quantity := 3, Price := 7, InvoiceDate := 1440 },
    { Invoice := "536367", CustomerID := some 101, Quantity := 6, Price := 1, InvoiceDate := 2880 },
    { Invoice := "536370", CustomerID := some 102, Quantity := 1, Price := 9, InvoiceDate := 2880 } ]

/-- Claim C1: the RFM frequency of a customer equals the number of
distinct invoice identifiers among that customer's surviving rows —
not the raw row count — and on a concrete set where customer 101 has
3 distinct invoices over 5 rows the frequency is 3. -/
theorem frequency_counts_distinct_invoices :
    (∀ (data : List Transaction) (c : Nat),
      Frequency (preprocess data) c =
        ((customerRows (preprocess data) c).map (fun r => r.Invoice)).toFinset.card) ∧
    (customerRows (preprocess exampleTxns) 101).length = 5 ∧
    Frequency (preprocess exampleTxns) 101 = 3 := by
  refine ⟨fun data c => ?_, by decide, by decide⟩
  exact (List.card_toFinset _).symm

/-- Claim C2: preprocessing keeps exactly the rows whose customer id is
present and whose invoice id does not start with the cancellation
marker `C`; every surviving row is an unchanged row of the input. -/
theorem preprocess_membership (data : List Transaction) (r : Transaction) :
    r ∈ preprocess data ↔
      r ∈ data ∧ r.CustomerID ≠ none ∧ isCancelled r = false := by
  unfold preprocess dropCancelled dropnaCustomer
  simp only [List.mem_filter, Bool.not_eq_true', Option.isSome_iff_ne_none]
  constructor
  · rintro ⟨⟨hmem, hsome⟩, hc⟩
    exact ⟨hmem, hsome, hc⟩
  · rintro ⟨hmem, hsome, hc⟩
    exact ⟨⟨hmem, hsome⟩, hc⟩

/-- Claim C3: on the filtered data every customer's recency is
nonnegative, and a customer whose latest transaction date equals the
dataset-wide maximum has recency zero. -/
theorem recency_nonneg_and_latest_zero (data : List Transaction) (c : Nat)
    (h : customerRows (preprocess data) c ≠ []) :
    0 ≤ Recency (preprocess data) c ∧
      (listMax (invoiceDates (customerRows (preprocess data) c)) =
          latestDate (preprocess data) →
        Recency (preprocess data) c = 0) := by
  constructor
  · apply tdDays_nonneg
    have hle := customerMax_le_latest h
    omega
  · intro heq
    unfold Recency
    rw [heq, sub_self]
    exact tdDays_zero

/-- Witness for the recency claim: customer 102 of the concrete
transaction set, whose only purchase happens at the dataset-wide
latest date. -/
theorem recency_nonneg_and_latest_zero_witness :
    0 ≤ Recency (preprocess exampleTxns) 102 ∧
      (listMax (invoiceDates (customerRows (preprocess exampleTxns) 102)) =
          latestDate (preprocess exampleTxns) →
        Recency (preprocess exampleTxns) 102 = 0) :=
  recency_nonneg_and_latest_zero exampleTxns 102 (by decide)

/-- A transaction set where customer 201 has a single transaction ten
days before the dataset-wide latest date (held by customer 202). -/
def exTenure : List Transaction :=
  [ { Invoice := "540001", CustomerID := some 201, Quantity := 1, Price := 4, InvoiceDate := 0 },
    { Invoice := "540002", CustomerID := some 202, Quantity := 2, Price := 6, InvoiceDate := 14400 } ]

/-- Counterexample to claim C4: customer 201 has exactly one
transaction, yet its tenure is not 0 — tenure is measured from the
dataset-wide latest date, not from the customer's own last purchase. -/
theorem tenure_single_transaction_not_zero :
    (customerRows (preprocess exTenure) 201).length = 1 ∧
      Tenure (preprocess exTenure) 201 ≠ 0 := by
  decide

/-- Claim C4 (amended): a customer with exactly one transaction in the
filtered data has tenure equal to their recency (their first and last
purchase coincide). -/
theorem tenure_single_transaction_eq_recency (data : List Transaction) (c : Nat)
    (h : (customerRows (preprocess data) c).length = 1) :
    Tenure (preprocess data) c = Recency (preprocess data) c := by
  obtain ⟨r, hr⟩ := List.length_eq_one.mp h
  unfold Tenure Recency FirstPurchase
  rw [hr]
  simp [invoiceDates, listMin, listMax]

/-- Witness for the amended single-transaction claim at customer 201
of the concrete two-customer set. -/
theorem tenure_single_transaction_eq_recency_witness :
    Tenure (preprocess exTenure) 201 = Recency (preprocess exTenure) 201 :=
  tenure_single_transaction_eq_recency exTenure 201 (by decide)

/-- A transaction set where customer 301's only purchase is one hour
(60 minutes) before the dataset-wide latest date of customer 302. -/
def exHour : List Transaction :=
  [ { Invoice := "550001", CustomerID := some 301, Quantity := 1, Price := 2, InvoiceDate := 0 },
    { Invoice := "550002", CustomerID := some 302, Quantity := 1, Price := 3, InvoiceDate := 60 } ]

/-- Counterexample to claim C5: customer 301 has tenure 0 although its
first purchase date does not coincide with the reference date — pandas
floors the timestamp difference to whole days, so any first purchase
less than one day before the reference yields tenure 0. -/
theorem tenure_zero_dates_differ :
    Tenure (preprocess exHour) 301 = 0 ∧
      FirstPurchase (preprocess exHour) 301 ≠ latestDate (preprocess exHour) := by
  decide

/-- Claim C5 (amended): tenure is nonnegative for every customer of
the filtered data, and tenure is 0 exactly when the reference date is
less than one full day after the customer's first purchase (in
particular when the two coincide). -/
theorem tenure_nonneg_and_zero_iff (data : List Transaction) (c : Nat)
    (h : customerRows (preprocess data) c ≠ []) :
    0 ≤ Tenure (preprocess data) c ∧
      (Tenure (preprocess data) c = 0 ↔
        latestDate (preprocess data) - FirstPurchase (preprocess data) c < minutesPerDay) := by
  have hle := firstPurchase_le_latest h
  have hd : 0 ≤ latestDate (preprocess data) - FirstPurchase (preprocess data) c := by omega
  exact ⟨tdDays_nonneg hd, tdDays_eq_zero_iff hd⟩

/-- Witness for the amended tenure claim at customer 301 of the
one-hour-apart transaction set. -/
theorem tenure_nonneg_and_zero_iff_witness :
    0 ≤ Tenure (preprocess exHour) 301 ∧
      (Tenure (preprocess exHour) 301 = 0 ↔
        latestDate (preprocess exHour) - FirstPurchase (preprocess exHour) 301 < minutesPerDay) :=
  tenure_nonneg_and_zero_iff exHour 301 (by decide)

/-!
The synthetic churn data generator (`generate_data` of
`model_training.py`).

Modelled from the spec: numpy's global pseudo-random generator is
library code absent from the repository.  The spec needs only that it
be a deterministic state machine — `np.random.seed` fixes the state
and each draw advances it deterministically — so it is modelled as a
linear congruential generator over a natural-number state, with one
state transition per drawn value.
-/

/-- State of the global pseudo-random generator. -/
abbrev RState := Nat

/-- One deterministic state transition of the modelled generator. -/
def lcgNext (s : RState) : RState :=
  (s * 1103515245 + 12345) % 2147483648

/-- `np.random.seed(seed)`: the ambient state is replaced by a state
that depends only on the seed. -/
def seedState (seed : Nat) : RState := seed

/-- The fraction in `[0, 1)` extracted from a generator state. -/
def unitFrac (s : RState) : Rat :=
  (s : Rat) / 2147483648

/-- `np.random.randint(lo, hi)`: one integer uniform on `[lo, hi)`. -/
def randNatStep (lo hi : Nat) (s : RState) : Nat × RState :=
  let s2 := lcgNext s
  (lo + s2 % (hi - lo), s2)

/-- `np.random.uniform(lo, hi)`: one real uniform on `[lo, hi)`. -/
def uniformStep (lo hi : Rat) (s : RState) : Rat × RState :=
  let s2 := lcgNext s
  (lo + (hi - lo) * unitFrac s2, s2)

/-- `np.random.choice(opts)`: one element of `opts`. -/
def choiceStep (opts : List String) (s : RState) : String × RState :=
  let s2 := lcgNext s
  (opts.getD (s2 % opts.length) "", s2)

/-- `np.random.binomial(1, p)`: one Bernoulli draw with parameter `p`. -/
def bernoulliStep (p : Rat) (s : RState) : Nat × RState :=
  let s2 := lcgNext s
  (if unitFrac s2 < p then 1 else 0, s2)

/-- A `size=n` vectorized draw: `n` successive scalar draws. -/
def drawList {α : Type} (step : RState → α × RState) : Nat → RState → List α × RState
  | 0, s => ([], s)
  | Nat.succ n, s =>
      let p := step s
      let rest := drawList step n p.2
      (p.1 :: rest.1, rest.2)

/-- `np.random.binomial(1, ps)` with a vector of parameters. -/
def bernoulliList : List Rat → RState → List Nat × RState
  | [], s => ([], s)
  | p :: ps, s =>
      let b := bernoulliStep p s
      let rest := bernoulliList ps b.2
      (b.1 :: rest.1, rest.2)

/-- `np.round(·, 2)` on one value: round half to even at two decimals. -/
def roundHalfEven (q : Rat) : Int :=
  let n := Rat.floor q
  let f := q - (n : Rat)
  if f < 1/2 then n
  else if 1/2 < f then n + 1
  else if n % 2 = 0 then n else n + 1

/-- Rounding to two decimal places, as `np.round(x, 2)`. -/
def round2 (q : Rat) : Rat :=
  (roundHalfEven (q * 100) : Rat) / 100

/-- `np.clip(x, lo, hi)`. -/
def clip (x lo hi : Rat) : Rat :=
  max lo (min x hi)

/-- The contract categories of `generate_data`. -/
def contractOptions : List String :=
  ["Month-to-month", "One year", "Two year"]

/-- The internet-service categories of `generate_data`. -/
def internetOptions : List String :=
  ["DSL", "Fiber optic", "No"]

/-- The online-security categories of `generate_data`. -/
def securityOptions : List String :=
  ["Yes", "No", "No internet service"]

/-- `tenure = np.random.randint(1, 72, size=num_samples)`, the first
draw after `np.random.seed(42)` inside `generate_data`. -/
def tenureDraw (n : Nat) : List Nat × RState :=
  drawList (randNatStep 1 72) n (seedState 42)

/-- `monthly_charges = np.round(np.random.uniform(20, 100, size=num_samples), 2)`. -/
def monthlyDraw (n : Nat) : List Rat × RState :=
  let u := drawList (uniformStep 20 100) n (tenureDraw n).2
  (u.1.map round2, u.2)

/-- The single scalar `np.random.uniform(0.8, 1.2)` of the
`total_charges` line — drawn once, without a `size` argument. -/
def jitterDraw (n : Nat) : Rat × RState :=
  uniformStep (4/5) (6/5) (monthlyDraw n).2

/-- `total_charges = np.round(tenure * monthly_charges * np.random.uniform(0.8, 1.2), 2)`:
the same scalar jitter multiplies every row. -/
def totalCharges (n : Nat) : List Rat :=
  List.zipWith (fun t m => round2 ((t : Rat) * m * (jitterDraw n).1))
    (tenureDraw n).1 (monthlyDraw n).1

/-- `contract = np.random.choice([...], size=num_samples)`. -/
def contractDraw (n : Nat) : List String × RState :=
  drawList (choiceStep contractOptions) n (jitterDraw n).2

/-- `internet_service = np.random.choice([...], size=num_samples)`. -/
def internetDraw (n : Nat) : List String × RState :=
  drawList (choiceStep internetOptions) n (contractDraw n).2

/-- `online_security = np.random.choice([...], size=num_samples)`. -/
def securityDraw (n : Nat) : List String × RState :=
  drawList (choiceStep securityOptions) n (internetDraw n).2

/-- The `churn_prob` linear combination of `generate_data`, before
clipping: `0.1 + 0.3·[contract = Month-to-month] + 0.2·[internet_service
= Fiber optic] + 0.15·[online_security = No] + 0.001·(monthly_charges − 50)`. -/
def churn_prob (contract internet_service online_security : String)
    (monthly_charges : Rat) : Rat :=
  1/10 + (if contract = "Month-to-month" then 3/10 else 0)
       + (if internet_service = "Fiber optic" then 1/5 else 0)
       + (if online_security = "No" then 3/20 else 0)
       + (1/1000) * (monthly_charges - 50)

/-- The per-sample vector of unclipped churn probabilities. -/
def churnProbCol (n : Nat) : List Rat :=
  (List.range n).map (fun k =>
    churn_prob ((contractDraw n).1.getD k "") ((internetDraw n).1.getD k "")
      ((securityDraw n).1.getD k "") ((monthlyDraw n).1.getD k 0))

/-- `churn = np.random.binomial(1, np.clip(churn_prob, 0, 0.9))`. -/
def churnDraw (n : Nat) : List Nat × RState :=
  bernoulliList ((churnProbCol n).map (fun p => clip p 0 (9/10))) (securityDraw n).2

/-- The columnar DataFrame assembled and returned by `generate_data`. -/
structure ChurnData where
  tenure : List Nat
  monthly_charges : List Rat
  total_charges : List Rat
  contract : List String
  internet_service : List String
  online_security : List String
  churn : List Nat

/-- `generate_data(num_samples)`: reseeds the global generator with 42,
draws every column, and returns the assembled DataFrame together with
the generator state left behind. -/
def generate_data (num_samples : Nat) (s : RState) : ChurnData × RState :=
  ({ tenure := (tenureDraw num_samples).1
     monthly_charges := (monthlyDraw num_samples).1
     total_charges := totalCharges num_samples
     contract := (contractDraw num_samples).1
     internet_service := (internetDraw num_samples).1
     online_security := (securityDraw num_samples).1
     churn := (churnDraw num_samples).1 },
   (churnDraw num_samples).2)

/-! Helper lemmas for the generator. -/

lemma getD_map_range {α : Type} (f : Nat → α) {n i : Nat} (d : α) (hi : i < n) :
    ((List.range n).map f).getD i d = f i := by
  rw [List.getD_eq_getElem?_getD, List.getElem?_map, List.getElem?_range hi]
  rfl

lemma clip_bounds (x lo hi : Rat) (h : lo ≤ hi) :
    lo ≤ clip x lo hi ∧ clip x lo hi ≤ hi :=
  ⟨le_max_left lo _, max_le h (min_le_right x hi)⟩

lemma uniformStep_bounds (lo hi : Rat) (s : RState) (h : lo ≤ hi) :
    lo ≤ (uniformStep lo hi s).1 ∧ (uniformStep lo hi s).1 ≤ hi := by
  unfold uniformStep unitFrac
  have hklt : lcgNext s < 2147483648 := by
    unfold lcgNext
    exact Nat.mod_lt _ (by norm_num)
  have h0 : (0 : Rat) ≤ (lcgNext s : Rat) / 2147483648 :=
    div_nonneg (Nat.cast_nonneg _) (by norm_num)
  have h1 : (lcgNext s : Rat) / 2147483648 ≤ 1 := by
    rw [div_le_one (by norm_num)]
    exact_mod_cast hklt.le
  constructor
  · simp only
    nlinarith
  · simp only
    nlinarith

/-- Claim C7: `generate_data` reseeds the global generator with the
fixed seed 42 before drawing, so two independent runs with the same
sample count — started from arbitrary ambient generator states —
return identical datasets. -/
theorem generate_data_deterministic (n : Nat) (s t : RState) :
    (generate_data n s).1 = (generate_data n t).1 := rfl

/-- The dataset of `generate_data` as a function of the sample count
alone. -/
def generate_data_output (num_samples : Nat) : ChurnData :=
  (generate_data num_samples 0).1

/-- Claim C9: because the seed is fixed inside `generate_data` rather
than taken as a parameter, the returned dataset is a pure function of
`num_samples`: any ambient generator state yields the same output, so
no two calls with equal sample counts can differ. -/
theorem generate_data_pure_function_of_n (n : Nat) (s : RState) :
    (generate_data n s).1 = generate_data_output n := rfl

/-- Claim C10: the jitter applied to `total_charges` is one scalar
uniform draw from `[0.8, 1.2)` shared by the whole column — every row's
total equals `round2(tenure · monthly_charges · j)` for the same `j` —
rather than an independent per-row factor. -/
theorem total_charges_shared_scalar_jitter (n : Nat) (s : RState) :
    ∃ j : Rat, 4/5 ≤ j ∧ j ≤ 6/5 ∧
      ((generate_data n s).1).total_charges =
        List.zipWith (fun t m => round2 ((t : Rat) * m * j))
          ((generate_data n s).1).tenure ((generate_data n s).1).monthly_charges := by
  refine ⟨(jitterDraw n).1, ?_, ?_, rfl⟩
  · exact (uniformStep_bounds (4/5) (6/5) (monthlyDraw n).2 (by norm_num)).1
  · exact (uniformStep_bounds (4/5) (6/5) (monthlyDraw n).2 (by norm_num)).2

/-- Claim C6: the churn column is drawn by per-sample Bernoulli trials
whose parameters are the clipped linear-combination probabilities, and
each such parameter equals the clipped `churn_prob` formula and lies
in `[0, 0.9]`. -/
theorem churn_bernoulli_parameter (n i : Nat) (s : RState) (h : i < n) :
    ((generate_data n s).1).churn =
      (bernoulliList ((churnProbCol n).map (fun p => clip p 0 (9/10)))
        (securityDraw n).2).1 ∧
    ((churnProbCol n).map (fun p => clip p 0 (9/10))).getD i 0 =
      clip (churn_prob ((contractDraw n).1.getD i "") ((internetDraw n).1.getD i "")
        ((securityDraw n).1.getD i "") ((monthlyDraw n).1.getD i 0)) 0 (9/10) ∧
    0 ≤ ((churnProbCol n).map (fun p => clip p 0 (9/10))).getD i 0 ∧
    ((churnProbCol n).map (fun p => clip p 0 (9/10))).getD i 0 ≤ 9/10 := by
  have hgetD : ((churnProbCol n).map (fun p => clip p 0 (9/10))).getD i 0 =
      clip (churn_prob ((contractDraw n).1.getD i "") ((internetDraw n).1.getD i "")
        ((securityDraw n).1.getD i "") ((monthlyDraw n).1.getD i 0)) 0 (9/10) := by
    unfold churnProbCol
    rw [List.map_map]
    exact getD_map_range _ 0 h
  refine ⟨rfl, hgetD, ?_, ?_⟩
  · rw [hgetD]
    exact (clip_bounds _ 0 (9/10) (by norm_num)).1
  · rw [hgetD]
    exact (clip_bounds _ 0 (9/10) (by norm_num)).2

/-- Witness for the Bernoulli-parameter claim at `n = 1`, `i = 0`. -/
theorem churn_bernoulli_parameter_witness :
    ((generate_data 1 0).1).churn =
      (bernoulliList ((churnProbCol 1).map (fun p => clip p 0 (9/10)))
        (securityDraw 1).2).1 ∧
    ((churnProbCol 1).map (fun p => clip p 0 (9/10))).getD 0 0 =
      clip (churn_prob ((contractDraw 1).1.getD 0 "") ((internetDraw 1).1.getD 0 "")
        ((securityDraw 1).1.getD 0 "") ((monthlyDraw 1).1.getD 0 0)) 0 (9/10) ∧
    0 ≤ ((churnProbCol 1).map (fun p => clip p 0 (9/10))).getD 0 0 ∧
    ((churnProbCol 1).map (fun p => clip p 0 (9/10))).getD 0 0 ≤ 9/10 :=
  churn_bernoulli_parameter 1 0 0 (by decide)

/-!
The churn classifier pipeline (`model_training.py` part 2 and the
prediction form of `app.py`).

Modelled from the spec: the fitted sklearn objects —
`OneHotEncoder(handle_unknown='ignore')`, the `ColumnTransformer` with
numeric passthrough, and the random forest's `predict` /
`predict_proba` — are library code absent from the repository.  Per
the spec, the encoder expands each categorical column into one
indicator column per category seen at fit time (a value unseen at
inference encodes as all zeros and never raises), the transformer
passes numeric columns through unchanged, and the forest averages
per-tree class distributions over (stay, churn).  All functions are
total, so "does not raise" is modelled as totality.
-/

/-- Modelled from the spec: one fitted categorical column of
`OneHotEncoder(handle_unknown='ignore')` — an indicator column per
fitted category; an unseen value yields all zeros. -/
def oneHotEncode (categories : List String) (v : String) : List Rat :=
  categories.map (fun c => if v = c then 1 else 0)

/-- Modelled from the spec: the `ColumnTransformer` with
`('num', 'passthrough', ...)` and `('cat', OneHotEncoder(...), ...)`:
numeric values pass through unchanged, followed by the one-hot blocks
of the categorical columns. -/
def columnTransform (numVals : List Rat)
    (catCols : List (List String × String)) : List Rat :=
  numVals ++ (catCols.map (fun p => oneHotEncode p.1 p.2)).flatten

/-- Modelled from the spec: a fitted tree of the random forest, a
black-box map from an encoded feature vector to a leaf class
distribution over (stay, churn). -/
structure DecisionTree where
  eval : List Rat → Rat × Rat

/-- Modelled from the spec: `model.predict_proba` of the random forest
averages the per-tree class distributions. -/
def predictProba (forest : List DecisionTree) (x : List Rat) : List Rat :=
  [ (forest.map (fun t => (t.eval x).1)).sum / forest.length,
    (forest.map (fun t => (t.eval x).2)).sum / forest.length ]

/-- Modelled from the spec: `model.predict` picks the class of largest
predicted probability (ties resolved to the first class, stay = 0). -/
def predictLabel (forest : List DecisionTree) (x : List Rat) : Nat :=
  if (predictProba forest x).getD 0 0 < (predictProba forest x).getD 1 0 then 1 else 0

/-- Per-tree class distributions that each sum to 1 add up to the
forest size. -/
lemma forest_sum (F : List DecisionTree) (x : List Rat)
    (h : ∀ t ∈ F, (t.eval x).1 + (t.eval x).2 = 1) :
    (F.map (fun t => (t.eval x).1)).sum + (F.map (fun t => (t.eval x).2)).sum
      = (F.length : Rat) := by
  induction F with
  | nil => simp
  | cons a F ih =>
      simp only [List.map_cons, List.sum_cons, List.length_cons]
      have ha := h a (List.mem_cons_self a F)
      have hF := ih (fun t ht => h t (List.mem_cons_of_mem a ht))
      push_cast
      linarith

/-- Claim C8: on an inference row whose first categorical value was
unseen at training time, the encoder degrades that block to all-zero
indicator columns without raising, and the pipeline still returns a
class label together with a length-2 probability vector summing
exactly to 1 (hence within 1e-6). -/
theorem pipeline_unseen_category (F : List DecisionTree)
    (numVals : List Rat) (cats1 cats2 cats3 : List String) (v1 v2 v3 : String)
    (x : List Rat)
    (hx : x = columnTransform numVals [(cats1, v1), (cats2, v2), (cats3, v3)])
    (hF : F ≠ [])
    (hleaf : ∀ t ∈ F, (t.eval x).1 + (t.eval x).2 = 1)
    (hunseen : v1 ∉ cats1) :
    oneHotEncode cats1 v1 = List.replicate cats1.length 0 ∧
    (predictProba F x).length = 2 ∧
    (predictProba F x).sum = 1 ∧
    (predictLabel F x = 0 ∨ predictLabel F x = 1) := by
  refine ⟨?_, rfl, ?_, ?_⟩
  · rw [List.eq_replicate_iff]
    refine ⟨by simp [oneHotEncode], ?_⟩
    intro b hb
    rcases List.mem_map.mp hb with ⟨c, hc, hbc⟩
    have hne : v1 ≠ c := fun heq => hunseen (heq ▸ hc)
    rw [← hbc, if_neg hne]
  · unfold predictProba
    simp only [List.sum_cons, List.sum_nil, add_zero]
    have hs := forest_sum F x hleaf
    have hlen : (F.length : Rat) ≠ 0 := by
      have h0 : F.length ≠ 0 := fun h0 => hF (List.length_eq_zero.mp h0)
      exact_mod_cast h0
    rw [div_add_div_same, hs, div_self hlen]
  · unfold predictLabel
    by_cases hc : (predictProba F x).getD 0 0 < (predictProba F x).getD 1 0
    · rw [if_pos hc]; exact Or.inr rfl
    · rw [if_neg hc]; exact Or.inl rfl

/-- A one-tree forest whose leaf distribution is (1/2, 1/2). -/
def exForest : List DecisionTree :=
  [ { eval := fun _ => (1/2, 1/2) } ]

/-- A concrete inference row whose contract value `Weekly` was never
seen at training time, encoded by the pipeline's preprocessor. -/
def exEncodedRow : List Rat :=
  columnTransform [12, 50, 600]
    [(contractOptions, "Weekly"), (internetOptions, "DSL"), (securityOptions, "No")]

/-- Witness for the unseen-category claim on the concrete row and
one-tree forest. -/
theorem pipeline_unseen_category_witness :
    oneHotEncode contractOptions "Weekly" = List.replicate contractOptions.length 0 ∧
    (predictProba exForest exEncodedRow).length = 2 ∧
    (predictProba exForest exEncodedRow).sum = 1 ∧
    (predictLabel exForest exEncodedRow = 0 ∨ predictLabel exForest exEncodedRow = 1) :=
  pipeline_unseen_category exForest [12, 50, 600]
    contractOptions internetOptions securityOptions "Weekly" "DSL" "No"
    exEncodedRow rfl (by simp [exForest])
    (by
      intro t ht
      have hts : t = { eval := fun _ => (1/2, 1/2) } := List.mem_singleton.mp ht
      rw [hts]
      norm_num)
    (by decide)
